import Mathlib

/-!
Verification of the spice-runner leaderboard API (`src/leaderboard-api/main.go`).

The Go service is embedded shallowly: database and Redis effects are made
explicit.  The set of stored score rows is a `List ScoreRecord`, the Redis
rank cache is a function `String → Option Int` (key to cached value), the
leaderboard snapshot cache is a function `String → Option (List
LeaderboardEntry)` (deserialisation of a cache hit is abstracted: a stored
snapshot is kept as the already-decoded list).  Fallible store operations
take a `Bool` flag saying whether the backing query succeeds, or an
`Except Unit` result.  Times and durations are `Int` nanoseconds, matching
Go's `time.Time`/`time.Duration` arithmetic.
-/

namespace SpiceRunner

/-- Nanoseconds in one second (`time.Second`). -/
def nsPerSecond : Int := 1000000000

/-- `cacheTTL = 5 * time.Minute` from main.go. -/
def cacheTTL : Int := 5 * 60 * nsPerSecond

/-- `maxRealisticScore = 100000` from main.go. -/
def maxRealisticScore : Int := 100000

/-- `minScoreSubmissionInterval = 10 * time.Second` from main.go. -/
def minScoreSubmissionInterval : Int := 10 * nsPerSecond

/-- `cacheKeyTopScores = "leaderboard:top:100"` from main.go: a single
fixed key for the leaderboard snapshot. -/
def cacheKeyTopScores : String := "leaderboard:top:100"

/-- The Redis key used by `calculateRank` for a score: Go computes
`fmt.Sprintf("leaderboard:player:%s:rank", score)`; applying the `%s` verb
to an `int` yields the verbatim text `%!s(int=N)`, so the key is still
distinct for each distinct score. -/
def rankCacheKey (score : Int) : String :=
  "leaderboard:player:%!s(int=" ++ toString score ++ "):rank"

/-- One row of the `scores` table. -/
structure ScoreRecord where
  id : Nat
  player_name : String
  score : Int
  session_id : String
  created_at : Int
deriving DecidableEq, Repr

/-- The decoded JSON body of a POST /api/scores request (`ScoreSubmission`). -/
structure ScoreSubmission where
  playerName : String
  score : Int
  sessionID : String
deriving DecidableEq, Repr

/-- The JSON body of a 201 response (`ScoreResponse`). -/
structure ScoreResponse where
  id : Nat
  playerName : String
  score : Int
  rank : Int
  createdAt : Int
deriving DecidableEq, Repr

/-- One row of the leaderboard returned by GET /api/leaderboard/top
(`LeaderboardEntry`). -/
structure LeaderboardEntry where
  rank : Int
  player_name : String
  score : Int
  created_at : Int
deriving DecidableEq, Repr

/-- The distinct rejection reasons produced by `validateScore` and
`checkSubmissionRate`, each carrying the data its Go error message
interpolates. -/
inductive ValidationError where
  | nameTooLong
  | negativeScore
  | sessionRequired
  | scoreTooHigh (maxScore : Int)
  | rateLimited (remainingWait : Int)
deriving DecidableEq, Repr

instance {ε α : Type} [DecidableEq ε] [DecidableEq α] :
    DecidableEq (Except ε α) := fun a b =>
  match a, b with
  | Except.ok x, Except.ok y =>
    if h : x = y then isTrue (by rw [h])
    else isFalse (by intro hc; cases hc; exact h rfl)
  | Except.error x, Except.error y =>
    if h : x = y then isTrue (by rw [h])
    else isFalse (by intro hc; cases hc; exact h rfl)
  | Except.ok _, Except.error _ => isFalse (by intro hc; cases hc)
  | Except.error _, Except.ok _ => isFalse (by intro hc; cases hc)

/-- `SELECT COUNT(*) FROM scores WHERE score > $1`. -/
def countGreaterThan (records : List ScoreRecord) (score : Int) : Nat :=
  (records.filter (fun r => decide (r.score > score))).length

/-- The derived rank of a score: `COUNT(*) + 1` over rows with a strictly
greater score (the query of `calculateRank`). -/
def rankOf (records : List ScoreRecord) (score : Int) : Int :=
  (countGreaterThan records score : Int) + 1

/-- The `created_at` of the most recent row for a session:
`SELECT created_at FROM scores WHERE session_id = $1 ORDER BY created_at
DESC LIMIT 1`. -/
def latestCreatedAt : List ScoreRecord → String → Option Int
  | [], _ => none
  | r :: rs, sid =>
    if r.session_id = sid then
      match latestCreatedAt rs sid with
      | none => some r.created_at
      | some t => some (max r.created_at t)
    else latestCreatedAt rs sid

/-- The result `QueryRow(...).Scan(&lastSubmission)` hands to
`checkSubmissionRate`: an error both when the store is unreachable
(`dbOK = false`) and when no row matches (`pgx.ErrNoRows`). -/
def queryLatestSubmission (records : List ScoreRecord) (sid : String)
    (dbOK : Bool) : Except Unit Int :=
  if dbOK then
    match latestCreatedAt records sid with
    | none => Except.error ()
    | some t => Except.ok t
  else Except.error ()

/-- `checkSubmissionRate` from main.go: any query error is treated as "no
previous submission found" and the submission is allowed; otherwise the
submission is rejected when less than `minScoreSubmissionInterval` has
elapsed, with the remaining wait in the error. -/
def checkSubmissionRate (q : Except Unit Int) (now : Int) :
    Except ValidationError Unit :=
  match q with
  | Except.error _ => Except.ok ()
  | Except.ok lastSubmission =>
    let timeSinceLastSubmission := now - lastSubmission
    if timeSinceLastSubmission < minScoreSubmissionInterval then
      Except.error
        (ValidationError.rateLimited
          (minScoreSubmissionInterval - timeSinceLastSubmission))
    else Except.ok ()

/-- `validateScore` from main.go.  `q` is the rate-check query result for
this submission's session.  An empty player name is replaced by
"Anonymous" before any check; the checks then run in source order, failing
fast.  Go's `len` counts bytes, hence `utf8ByteSize`.  Returns the
(possibly renamed) submission on success, mirroring Go's in-place
mutation. -/
def validateScore (q : Except Unit Int) (now : Int) (s : ScoreSubmission) :
    Except ValidationError ScoreSubmission :=
  let s := if s.playerName = "" then { s with playerName := "Anonymous" } else s
  if s.playerName.utf8ByteSize > 100 then Except.error ValidationError.nameTooLong
  else if s.score < 0 then Except.error ValidationError.negativeScore
  else if s.sessionID = "" then Except.error ValidationError.sessionRequired
  else if s.score > maxRealisticScore then
    Except.error (ValidationError.scoreTooHigh maxRealisticScore)
  else
    match checkSubmissionRate q now with
    | Except.error e => Except.error e
    | Except.ok _ => Except.ok s

/-- Result of one `calculateRank` call: the returned rank (or a query
error), the rank cache after the call, and the list of
(key, value, ttl) writes the call performed on the cache. -/
structure RankResult where
  result : Except Unit Int
  cache : String → Option Int
  writes : List (String × Int × Int)

/-- `calculateRank` from main.go.  On a cache hit the cached value is
returned unchanged and nothing is written.  On a miss, if the database
query succeeds (`dbOK`), `COUNT(*) + 1` over strictly greater scores is
returned and stored under the score's key with `cacheTTL`; if it fails the
error is returned and nothing is written. -/
def calculateRank (cache : String → Option Int) (records : List ScoreRecord)
    (dbOK : Bool) (score : Int) : RankResult :=
  match cache (rankCacheKey score) with
  | some cachedRank => ⟨Except.ok cachedRank, cache, []⟩
  | none =>
    if dbOK then
      let rank : Int := (countGreaterThan records score : Int) + 1
      ⟨Except.ok rank,
       fun k => if k = rankCacheKey score then some rank else cache k,
       [(rankCacheKey score, rank, cacheTTL)]⟩
    else ⟨Except.error (), cache, []⟩

/-- The body and HTTP status produced by `healthHandler`. -/
structure HealthResult where
  status : String
  httpStatus : Nat
  database : String
  redis : String
deriving DecidableEq, Repr

/-- `healthHandler` from main.go: status starts "healthy"; a failing
database ping flips it to "unhealthy", marks the database "down" and
writes a 503; the Redis ping is checked independently and only toggles
the `redis` field. -/
def healthCheck (dbOK redisOK : Bool) : HealthResult :=
  let status := "healthy"
  let httpStatus := 200
  let (status, database, httpStatus) :=
    if dbOK then (status, "up", httpStatus) else ("unhealthy", "down", 503)
  let redisField := if redisOK then "up" else "down"
  ⟨status, httpStatus, database, redisField⟩

/-- Digit run of a decimal numeral, `none` when empty or containing a
non-digit (the failure mode of `strconv.Atoi` on its digit part). -/
def digitsToNat : List Char → Option Nat
  | [] => none
  | ds =>
    if ds.all Char.isDigit then
      some (ds.foldl (fun n c => n * 10 + (c.toNat - 48)) 0)
    else none

/-- `strconv.Atoi`: an optional sign followed by at least one digit
(64-bit overflow, irrelevant at the limits this service passes, is not
modelled). -/
def atoi (s : String) : Option Int :=
  match s.data with
  | '-' :: ds => (digitsToNat ds).map (fun n => -(n : Int))
  | '+' :: ds => (digitsToNat ds).map (fun n => (n : Int))
  | ds => (digitsToNat ds).map (fun n => (n : Int))

/-- The effective query limit of `getTopScoresHandler`: `limit := 100`,
overwritten by the parsed `limit` query parameter only when parsing
succeeds and `0 < l ∧ l ≤ 1000`.  The absent parameter is the empty
string, as returned by Go's `Query().Get`. -/
def effectiveLimit (limitStr : String) : Nat :=
  let limit : Nat := 100
  if limitStr = "" then limit
  else
    match atoi limitStr with
    | some l => if 0 < l ∧ l ≤ 1000 then l.toNat else limit
    | none => limit

/-- The snapshot-cache key `getTopScoresHandler` reads for a request with
the given `limit` query string: the source always uses the constant
`cacheKeyTopScores`, whatever the limit. -/
def topScoresCacheKey (limitStr : String) : String :=
  cacheKeyTopScores

/-- The rows produced on a snapshot-cache miss:
`SELECT ROW_NUMBER() OVER (ORDER BY score DESC) as rank, ... ORDER BY
score DESC LIMIT $1` — the records sorted by score descending, truncated
to `limit`, with 1-based positions as ranks. -/
def topN (records : List ScoreRecord) (limit : Nat) : List LeaderboardEntry :=
  let sorted := records.mergeSort (fun a b => decide (b.score ≤ a.score))
  ((sorted.take limit).enum).map
    (fun p => ⟨(p.1 : Int) + 1, p.2.player_name, p.2.score, p.2.created_at⟩)

/-- `getTopScoresHandler` from main.go, read path only: a snapshot-cache
hit is returned as-is; a miss queries the store with the effective limit
(or reports a 500-class error when the query fails).  `snapshot` maps a
cache key to the decoded cached list. -/
def getTopScores (snapshot : String → Option (List LeaderboardEntry))
    (records : List ScoreRecord) (dbOK : Bool) (limitStr : String) :
    Except Unit (List LeaderboardEntry) :=
  match snapshot (topScoresCacheKey limitStr) with
  | some cached => Except.ok cached
  | none =>
    if dbOK then Except.ok (topN records (effectiveLimit limitStr))
    else Except.error ()

/-- The persistent store as seen by `submitScoreHandler`: the stored rows
and the next `SERIAL` id. -/
structure DBState where
  records : List ScoreRecord
  nextId : Nat
deriving Repr

/-- Everything observable about one `submitScoreHandler` call: HTTP
status, response body, the store after the call, the Redis keys deleted,
the rank cache after the call and the rank-cache writes performed. -/
structure SubmitOutcome where
  status : Nat
  response : Option ScoreResponse
  db : DBState
  cacheDeletes : List String
  rankCache : String → Option Int
  rankCacheWrites : List (String × Int × Int)

/-- `submitScoreHandler` from main.go.  `body` is the decoded request
body (`none` = JSON decoding failed).  A decode or validation failure
returns 400 touching nothing; an insert failure returns 500 touching
nothing.  After a successful insert the snapshot key is deleted, the rank
is computed over the post-insert rows (`-1` when that fails), and a 201
response is composed. -/
def submitScore (db : DBState) (rankCache : String → Option Int)
    (body : Option ScoreSubmission) (now : Int)
    (rateDbOK insertOK rankDbOK : Bool) : SubmitOutcome :=
  match body with
  | none => ⟨400, none, db, [], rankCache, []⟩
  | some submission =>
    match validateScore
        (queryLatestSubmission db.records submission.sessionID rateDbOK)
        now submission with
    | Except.error _ => ⟨400, none, db, [], rankCache, []⟩
    | Except.ok v =>
      if insertOK then
        let row : ScoreRecord := ⟨db.nextId, v.playerName, v.score, v.sessionID, now⟩
        let db' : DBState := ⟨db.records ++ [row], db.nextId + 1⟩
        let rr := calculateRank rankCache db'.records rankDbOK v.score
        let rank := match rr.result with
          | Except.ok r => r
          | Except.error _ => -1
        ⟨201, some ⟨db.nextId, v.playerName, v.score, rank, now⟩, db',
         [cacheKeyTopScores], rr.cache, rr.writes⟩
      else ⟨500, none, db, [], rankCache, []⟩

/-! ## Theorems -/

/-- C10: any error from the latest-submission query — the store being
unreachable (`dbOK = false`) included — is treated by the rate check
exactly like "no prior submission": the submission is allowed, never
rejected and never turned into a 5xx at that step. -/
theorem checkSubmissionRate_store_failure (records : List ScoreRecord)
    (sid : String) (now : Int) :
    checkSubmissionRate (queryLatestSubmission records sid false) now =
      Except.ok ()
    ∧ checkSubmissionRate (Except.error ()) now = Except.ok () := by
  constructor
  · simp [queryLatestSubmission, checkSubmissionRate]
  · rfl

/-- C8: the health endpoint is "unhealthy" with a 503 iff the database
ping fails; a cache-only failure keeps status "healthy" with a 200 and
reports the cache as "down"; both dependency fields are reported
independently on every call. -/
theorem healthCheck_spec (dbOK redisOK : Bool) :
    (((healthCheck dbOK redisOK).status = "unhealthy"
        ∧ (healthCheck dbOK redisOK).httpStatus = 503) ↔ dbOK = false)
    ∧ (dbOK = true → redisOK = false →
        (healthCheck dbOK redisOK).status = "healthy"
        ∧ (healthCheck dbOK redisOK).httpStatus = 200
        ∧ (healthCheck dbOK redisOK).redis = "down")
    ∧ (healthCheck dbOK redisOK).redis = (if redisOK then "up" else "down")
    ∧ (healthCheck dbOK redisOK).database = (if dbOK then "up" else "down") := by
  cases dbOK <;> cases redisOK <;> decide

/-- Witness for C8 at a concrete input: database up, cache down. -/
theorem healthCheck_spec_witness :
    (healthCheck true false).status = "healthy"
    ∧ (healthCheck true false).httpStatus = 200
    ∧ (healthCheck true false).redis = "down" :=
  (healthCheck_spec true false).2.1 rfl rfl

/-- C1: on a rank-cache hit `calculateRank` returns the cached value
unchanged and writes nothing; on a miss it returns `countGreaterThan + 1`,
stores exactly that value under the score's key with `cacheTTL`, and
leaves every other cache key untouched. -/
theorem calculateRank_spec (cache : String → Option Int)
    (records : List ScoreRecord) (score : Int) :
    (∀ r, cache (rankCacheKey score) = some r →
        calculateRank cache records true score = ⟨Except.ok r, cache, []⟩)
    ∧ (cache (rankCacheKey score) = none →
        (calculateRank cache records true score).result =
            Except.ok (rankOf records score)
        ∧ (calculateRank cache records true score).writes =
            [(rankCacheKey score, rankOf records score, cacheTTL)]
        ∧ (calculateRank cache records true score).cache (rankCacheKey score) =
            some (rankOf records score)
        ∧ (∀ k, k ≠ rankCacheKey score →
            (calculateRank cache records true score).cache k = cache k)) := by
  constructor
  · intro r h
    simp [calculateRank, h]
  · intro h
    refine ⟨?_, ?_, ?_, ?_⟩
    · simp [calculateRank, h, rankOf]
    · simp [calculateRank, h, rankOf]
    · simp [calculateRank, h, rankOf]
    · intro k hk
      simp [calculateRank, h, hk]

/-- Witness for C1 at concrete inputs: one cache hit, one cache miss. -/
theorem calculateRank_spec_witness :
    calculateRank (fun k => if k = rankCacheKey 5 then some 3 else none) [] true 5 =
      ⟨Except.ok 3, (fun k => if k = rankCacheKey 5 then some 3 else none), []⟩
    ∧ (calculateRank (fun _ => none) [] true 7).result = Except.ok (rankOf [] 7) :=
  ⟨(calculateRank_spec (fun k => if k = rankCacheKey 5 then some 3 else none)
      [] 5).1 3 (by simp),
   ((calculateRank_spec (fun _ => none) [] 7).2 rfl).1⟩

/-- Raising the threshold can only shrink the strictly-greater count. -/
theorem countGreaterThan_anti (records : List ScoreRecord) {a b : Int}
    (h : b ≤ a) : countGreaterThan records a ≤ countGreaterThan records b := by
  induction records with
  | nil => exact Nat.le_refl _
  | cons r rs ih =>
    simp only [countGreaterThan, gt_iff_lt] at ih ⊢
    simp only [List.filter_cons]
    by_cases h1 : a < r.score
    · have h2 : b < r.score := lt_of_le_of_lt h h1
      simp [h1, h2]
      omega
    · by_cases h2 : b < r.score
      · simp [h1, h2]
        omega
      · simp [h1, h2]
        exact ih

/-- C7: over any fixed set of stored rows, a strictly higher score gets a
rank number less than or equal to that of a lower score, equal scores get
equal ranks, and this derived rank is exactly what the ranking engine
returns on a cold cache. -/
theorem rank_monotone (records : List ScoreRecord) (a b : Int) :
    (b < a → rankOf records a ≤ rankOf records b)
    ∧ (a = b → rankOf records a = rankOf records b)
    ∧ (calculateRank (fun _ => none) records true a).result =
        Except.ok (rankOf records a) := by
  refine ⟨?_, ?_, ?_⟩
  · intro h
    have hc := countGreaterThan_anti records (le_of_lt h)
    simp only [rankOf]
    omega
  · intro h
    rw [h]
  · simp [calculateRank, rankOf]

/-- Witness for C7 at a concrete input: score 11 ranks no worse than
score 9 over one stored row. -/
theorem rank_monotone_witness :
    rankOf [⟨1, "x", 10, "s", 0⟩] 11 ≤ rankOf [⟨1, "x", 10, "s", 0⟩] 9 :=
  (rank_monotone [⟨1, "x", 10, "s", 0⟩] 11 9).1 (by decide)

/-- A latest-submission time returned for a session is attained by some
stored row of that session. -/
theorem latestCreatedAt_attained (records : List ScoreRecord) (sid : String) :
    ∀ t, latestCreatedAt records sid = some t →
      ∃ r ∈ records, r.session_id = sid ∧ r.created_at = t := by
  induction records with
  | nil => intro t h; simp [latestCreatedAt] at h
  | cons r rs ih =>
    intro t h
    simp only [latestCreatedAt] at h
    by_cases hs : r.session_id = sid
    · rw [if_pos hs] at h
      cases hrest : latestCreatedAt rs sid with
      | none =>
        rw [hrest] at h
        cases h
        exact ⟨r, by simp, hs, rfl⟩
      | some t' =>
        rw [hrest] at h
        cases h
        rcases max_cases r.created_at t' with ⟨hmax, _⟩ | ⟨hmax, _⟩
        · exact ⟨r, by simp, hs, hmax.symm⟩
        · obtain ⟨r', hr', hsid', hct'⟩ := ih t' hrest
          exact ⟨r', by simp [hr'], hsid', by rw [hct', hmax]⟩
    · rw [if_neg hs] at h
      obtain ⟨r', hr', h1, h2⟩ := ih t h
      exact ⟨r', by simp [hr'], h1, h2⟩

/-- The latest-submission time for a session bounds the creation time of
every stored row of that session. -/
theorem latestCreatedAt_isMax (records : List ScoreRecord) (sid : String)
    (r : ScoreRecord) (hr : r ∈ records) (hsid : r.session_id = sid) :
    ∃ t, latestCreatedAt records sid = some t ∧ r.created_at ≤ t := by
  induction records with
  | nil => cases hr
  | cons x xs ih =>
    simp only [latestCreatedAt]
    rcases List.mem_cons.mp hr with rfl | hmem
    · rw [if_pos hsid]
      cases h : latestCreatedAt xs sid with
      | none => exact ⟨r.created_at, rfl, le_refl _⟩
      | some t => exact ⟨max r.created_at t, rfl, le_max_left _ _⟩
    · obtain ⟨t, ht, hle⟩ := ih hmem
      by_cases hx : x.session_id = sid
      · rw [if_pos hx, ht]
        exact ⟨max x.created_at t, rfl, le_trans hle (le_max_right _ _)⟩
      · rw [if_neg hx]
        exact ⟨t, ht, hle⟩

/-- A session with no stored row has no latest-submission time. -/
theorem latestCreatedAt_eq_none (records : List ScoreRecord) (sid : String)
    (h : ∀ r ∈ records, r.session_id ≠ sid) :
    latestCreatedAt records sid = none := by
  induction records with
  | nil => rfl
  | cons x xs ih =>
    simp only [latestCreatedAt]
    rw [if_neg (h x (by simp))]
    exact ih (fun r hr => h r (by simp [hr]))

/-- C3: with a reachable store, the rate check rejects a session's
submission exactly when some stored row of that session was created less
than `minScoreSubmissionInterval` (10 s) before `now`; a session with no
prior row is always allowed; a rejection carries the remaining wait
time `minScoreSubmissionInterval - (now - latest)`. -/
theorem checkSubmissionRate_spec (records : List ScoreRecord) (sid : String)
    (now : Int) :
    ((∃ e, checkSubmissionRate (queryLatestSubmission records sid true) now =
        Except.error e) ↔
      ∃ r ∈ records, r.session_id = sid
        ∧ now - r.created_at < minScoreSubmissionInterval)
    ∧ ((∀ r ∈ records, r.session_id ≠ sid) →
        checkSubmissionRate (queryLatestSubmission records sid true) now =
          Except.ok ())
    ∧ (∀ t, latestCreatedAt records sid = some t →
        now - t < minScoreSubmissionInterval →
        checkSubmissionRate (queryLatestSubmission records sid true) now =
          Except.error (ValidationError.rateLimited
            (minScoreSubmissionInterval - (now - t)))) := by
  refine ⟨⟨?_, ?_⟩, ?_, ?_⟩
  · rintro ⟨e, he⟩
    cases hlat : latestCreatedAt records sid with
    | none =>
      rw [queryLatestSubmission, if_pos rfl, hlat] at he
      simp [checkSubmissionRate] at he
    | some t =>
      rw [queryLatestSubmission, if_pos rfl, hlat] at he
      simp only [checkSubmissionRate] at he
      by_cases hlt : now - t < minScoreSubmissionInterval
      · obtain ⟨r, hr, hsid, hct⟩ := latestCreatedAt_attained records sid t hlat
        exact ⟨r, hr, hsid, by rw [hct]; exact hlt⟩
      · rw [if_neg hlt] at he
        cases he
  · rintro ⟨r, hr, hsid, hlt⟩
    obtain ⟨t, ht, hle⟩ := latestCreatedAt_isMax records sid r hr hsid
    have hlt' : now - t < minScoreSubmissionInterval := by omega
    refine ⟨ValidationError.rateLimited (minScoreSubmissionInterval - (now - t)), ?_⟩
    rw [queryLatestSubmission, if_pos rfl, ht]
    simp only [checkSubmissionRate]
    rw [if_pos hlt']
  · intro h
    rw [queryLatestSubmission, if_pos rfl, latestCreatedAt_eq_none records sid h]
    rfl
  · intro t ht hlt
    rw [queryLatestSubmission, if_pos rfl, ht]
    simp only [checkSubmissionRate]
    rw [if_pos hlt]

/-- Witness for C3 at a concrete input: one row created 5 s before now in
the same session triggers a rejection. -/
theorem checkSubmissionRate_spec_witness :
    ∃ e, checkSubmissionRate
        (queryLatestSubmission [⟨1, "p", 5, "s", 0⟩] "s" true)
        (5 * nsPerSecond) = Except.error e :=
  (checkSubmissionRate_spec [⟨1, "p", 5, "s", 0⟩] "s" (5 * nsPerSecond)).1.mpr
    ⟨⟨1, "p", 5, "s", 0⟩, by simp, rfl, by decide⟩

/-- The database read path of the top-scores handler returns at most
`limit` rows. -/
theorem topN_length_le (records : List ScoreRecord) (limit : Nat) :
    (topN records limit).length ≤ limit := by
  simp only [topN, List.length_map, List.enum_length, List.length_take]
  exact min_le_left _ _

/-- C2 fails on the code: a requested limit of 2000 is served with the
default effective limit 100, not the hard maximum 1000, the snapshot
cache key is the same fixed string for every requested limit, and a cache
hit is returned as-is even when it holds more rows than the requested
limit (here 2 rows for limit 1). -/
theorem getTopScores_claim_counterexample :
    effectiveLimit "2000" = 100
    ∧ effectiveLimit "2000" ≠ 1000
    ∧ topScoresCacheKey "5" = topScoresCacheKey "7"
    ∧ getTopScores
        (fun _ => some [⟨1, "a", 5, 0⟩, ⟨2, "b", 4, 0⟩]) [] true "1" =
        Except.ok [⟨1, "a", 5, 0⟩, ⟨2, "b", 4, 0⟩]
    ∧ effectiveLimit "1" = 1 :=
  ⟨by decide, by decide, rfl, rfl, by decide⟩

/-- C2 (amended): every getTopScores request reads the snapshot cache
under the single fixed key `cacheKeyTopScores`, whatever the requested
limit; a cache hit is returned as-is; on a miss the store is queried with
the effective limit and at most that many rows are returned, where the
effective limit is the parsed limit `l` when `0 < l ≤ 1000` and the
default 100 otherwise — in particular an absent limit and a limit above
1000 are both served with 100. -/
theorem getTopScores_spec (snapshot : String → Option (List LeaderboardEntry))
    (records : List ScoreRecord) (dbOK : Bool) (limitStr : String) :
    topScoresCacheKey limitStr = cacheKeyTopScores
    ∧ (∀ cached, snapshot cacheKeyTopScores = some cached →
        getTopScores snapshot records dbOK limitStr = Except.ok cached)
    ∧ (snapshot cacheKeyTopScores = none →
        getTopScores snapshot records true limitStr =
          Except.ok (topN records (effectiveLimit limitStr))
        ∧ (topN records (effectiveLimit limitStr)).length ≤
            effectiveLimit limitStr)
    ∧ effectiveLimit "" = 100
    ∧ (∀ l : Int, limitStr ≠ "" → atoi limitStr = some l →
        effectiveLimit limitStr =
          if 0 < l ∧ l ≤ 1000 then l.toNat else 100) := by
  refine ⟨rfl, ?_, ?_, rfl, ?_⟩
  · intro cached h
    simp [getTopScores, topScoresCacheKey, h]
  · intro h
    refine ⟨?_, topN_length_le records (effectiveLimit limitStr)⟩
    simp [getTopScores, topScoresCacheKey, h]
  · intro l hne hl
    simp [effectiveLimit, hne, hl]

/-- Witness for C2 (amended) at concrete inputs: an empty cache, no rows,
requested limit 2000. -/
theorem getTopScores_spec_witness :
    getTopScores (fun _ => none) [] true "2000" =
      Except.ok (topN [] (effectiveLimit "2000"))
    ∧ effectiveLimit "2000" = (if 0 < (2000 : Int) ∧ (2000 : Int) ≤ 1000
        then (2000 : Int).toNat else 100) :=
  ⟨((getTopScores_spec (fun _ => none) [] true "2000").2.2.1 rfl).1,
   (getTopScores_spec (fun _ => none) [] true "2000").2.2.2.2 2000
     (by decide) (by decide)⟩

/-- C4: with the other rules passing, validation accepts 100000, rejects
100001 as too high and -1 as negative; an empty player name becomes
"Anonymous" before the checks and is carried through acceptance; and the
rules fire in source order (name-length, negative-score, session-present,
max-score, rate-check), failing fast on the first violation. -/
theorem validateScore_spec (name sid : String) (q : Except Unit Int)
    (now : Int) (hname : name ≠ "" ∧ name.utf8ByteSize ≤ 100)
    (hsid : sid ≠ "") (hrate : checkSubmissionRate q now = Except.ok ()) :
    validateScore q now ⟨name, 100000, sid⟩ = Except.ok ⟨name, 100000, sid⟩
    ∧ validateScore q now ⟨name, 100001, sid⟩ =
        Except.error (ValidationError.scoreTooHigh 100000)
    ∧ validateScore q now ⟨name, -1, sid⟩ =
        Except.error ValidationError.negativeScore
    ∧ (∀ sc : Int, 0 ≤ sc → sc ≤ 100000 →
        validateScore q now ⟨"", sc, sid⟩ = Except.ok ⟨"Anonymous", sc, sid⟩)
    ∧ (∀ (n sid2 : String) (sc : Int), n ≠ "" → n.utf8ByteSize > 100 →
        validateScore q now ⟨n, sc, sid2⟩ =
          Except.error ValidationError.nameTooLong)
    ∧ (∀ (n sid2 : String) (sc : Int), n ≠ "" → n.utf8ByteSize ≤ 100 →
        sc < 0 →
        validateScore q now ⟨n, sc, sid2⟩ =
          Except.error ValidationError.negativeScore)
    ∧ (∀ (n : String) (sc : Int), n ≠ "" → n.utf8ByteSize ≤ 100 → 0 ≤ sc →
        validateScore q now ⟨n, sc, ""⟩ =
          Except.error ValidationError.sessionRequired)
    ∧ (∀ (n sid2 : String) (sc : Int), n ≠ "" → n.utf8ByteSize ≤ 100 →
        0 ≤ sc → sid2 ≠ "" → sc > 100000 →
        validateScore q now ⟨n, sc, sid2⟩ =
          Except.error (ValidationError.scoreTooHigh 100000)) := by
  obtain ⟨hne, hlen⟩ := hname
  have hlen' : ¬ name.utf8ByteSize > 100 := by omega
  refine ⟨?_, ?_, ?_, ?_, ?_, ?_, ?_, ?_⟩
  · simp [validateScore, hne, hlen', hsid, maxRealisticScore, hrate]
  · simp [validateScore, hne, hlen', hsid, maxRealisticScore]
  · simp [validateScore, hne, hlen', hsid]
  · intro sc h0 h1
    simp [validateScore, hsid, maxRealisticScore, hrate, not_lt.mpr h0,
      not_lt.mpr h1, (by decide : ¬ (100 : Nat) < "Anonymous".utf8ByteSize)]
  · intro n sid2 sc hn hbig
    simp [validateScore, hn, hbig]
  · intro n sid2 sc hn hsz hneg
    simp [validateScore, hn, hsz, hneg]
  · intro n sc hn hsz h0
    simp [validateScore, hn, hsz, not_lt.mpr h0]
  · intro n sid2 sc hn hsz h0 hs2 hbig
    simp [validateScore, hn, hsz, not_lt.mpr h0, hs2, maxRealisticScore, hbig]

/-- Witness for C4 at concrete inputs: "p"/100000 accepted and an empty
name stored as "Anonymous". -/
theorem validateScore_spec_witness :
    validateScore (Except.error ()) 0 ⟨"p", 100000, "s"⟩ =
      Except.ok ⟨"p", 100000, "s"⟩
    ∧ validateScore (Except.error ()) 0 ⟨"", 5, "s"⟩ =
      Except.ok ⟨"Anonymous", 5, "s"⟩ :=
  ⟨(validateScore_spec "p" "s" (Except.error ()) 0 ⟨by decide, by decide⟩
      (by decide) rfl).1,
   (validateScore_spec "p" "s" (Except.error ()) 0 ⟨by decide, by decide⟩
      (by decide) rfl).2.2.2.1 5 (by decide) (by decide)⟩

/-- C5: when the insert succeeds but the rank computation fails (cache
miss and failing count query), submit still answers 201 with rank -1 and
the id, player name, score and creation time all populated — the rank
failure never becomes a request error. -/
theorem submitScore_rank_failure (db : DBState)
    (rankCache : String → Option Int) (sub v : ScoreSubmission) (now : Int)
    (rateDbOK : Bool)
    (hval : validateScore
        (queryLatestSubmission db.records sub.sessionID rateDbOK) now sub =
      Except.ok v)
    (hmiss : rankCache (rankCacheKey v.score) = none) :
    (submitScore db rankCache (some sub) now rateDbOK true false).status = 201
    ∧ (submitScore db rankCache (some sub) now rateDbOK true false).response =
        some ⟨db.nextId, v.playerName, v.score, -1, now⟩ := by
  simp only [submitScore, hval]
  simp [calculateRank, hmiss]

/-- Witness for C5 at a concrete input: empty store, empty cache, a valid
submission, failing count query. -/
theorem submitScore_rank_failure_witness :
    (submitScore ⟨[], 0⟩ (fun _ => none) (some ⟨"p", 5, "s"⟩) 0 true true
        false).status = 201
    ∧ (submitScore ⟨[], 0⟩ (fun _ => none) (some ⟨"p", 5, "s"⟩) 0 true true
        false).response = some ⟨0, "p", 5, -1, 0⟩ :=
  submitScore_rank_failure ⟨[], 0⟩ (fun _ => none) ⟨"p", 5, "s"⟩ ⟨"p", 5, "s"⟩
    0 true (by decide) rfl

/-- C6: a submit whose body fails to decode or fails validation answers
400 and performs no write at all: the stored rows, the snapshot cache and
the rank cache are all left exactly as they were. -/
theorem submitScore_no_partial_write (db : DBState)
    (rankCache : String → Option Int) (now : Int)
    (rateDbOK insertOK rankDbOK : Bool) :
    ((submitScore db rankCache none now rateDbOK insertOK rankDbOK).status =
        400
      ∧ (submitScore db rankCache none now rateDbOK insertOK rankDbOK).db = db
      ∧ (submitScore db rankCache none now rateDbOK insertOK
          rankDbOK).cacheDeletes = []
      ∧ (submitScore db rankCache none now rateDbOK insertOK
          rankDbOK).rankCacheWrites = []
      ∧ ∀ k, (submitScore db rankCache none now rateDbOK insertOK
          rankDbOK).rankCache k = rankCache k)
    ∧ (∀ sub e, validateScore
          (queryLatestSubmission db.records sub.sessionID rateDbOK) now sub =
            Except.error e →
        (submitScore db rankCache (some sub) now rateDbOK insertOK
            rankDbOK).status = 400
        ∧ (submitScore db rankCache (some sub) now rateDbOK insertOK
            rankDbOK).db = db
        ∧ (submitScore db rankCache (some sub) now rateDbOK insertOK
            rankDbOK).cacheDeletes = []
        ∧ (submitScore db rankCache (some sub) now rateDbOK insertOK
            rankDbOK).rankCacheWrites = []
        ∧ ∀ k, (submitScore db rankCache (some sub) now rateDbOK insertOK
            rankDbOK).rankCache k = rankCache k) := by
  constructor
  · simp [submitScore]
  · intro sub e h
    simp [submitScore, h]

/-- Witness for C6 at a concrete input: a negative score is rejected and
nothing is written. -/
theorem submitScore_no_partial_write_witness :
    (submitScore ⟨[], 0⟩ (fun _ => none) (some ⟨"p", -1, "s"⟩) 0 true true
        true).status = 400
    ∧ (submitScore ⟨[], 0⟩ (fun _ => none) (some ⟨"p", -1, "s"⟩) 0 true true
        true).db = ⟨[], 0⟩ :=
  ⟨((submitScore_no_partial_write ⟨[], 0⟩ (fun _ => none) 0 true true true).2
      ⟨"p", -1, "s"⟩ ValidationError.negativeScore (by decide)).1,
   ((submitScore_no_partial_write ⟨[], 0⟩ (fun _ => none) 0 true true true).2
      ⟨"p", -1, "s"⟩ ValidationError.negativeScore (by decide)).2.1⟩

/-- C9: after a successful insert exactly one cache key is deleted — the
leaderboard snapshot key — and no existing rank-cache entry is deleted or
changed: every rank cached before the call is still cached, with the same
value, after it. -/
theorem submitScore_cache_invalidation (db : DBState)
    (rankCache : String → Option Int) (sub v : ScoreSubmission) (now : Int)
    (rateDbOK rankDbOK : Bool)
    (hval : validateScore
        (queryLatestSubmission db.records sub.sessionID rateDbOK) now sub =
      Except.ok v) :
    (submitScore db rankCache (some sub) now rateDbOK true
        rankDbOK).cacheDeletes = [cacheKeyTopScores]
    ∧ ∀ k r, rankCache k = some r →
        (submitScore db rankCache (some sub) now rateDbOK true
            rankDbOK).rankCache k = some r := by
  constructor
  · simp [submitScore, hval]
  · intro k r hk
    simp only [submitScore, hval]
    simp only [calculateRank]
    cases hc : rankCache (rankCacheKey v.score) with
    | some c => simp [hc, hk]
    | none =>
      cases rankDbOK with
      | false => simp [hc, hk]
      | true =>
        by_cases hkk : k = rankCacheKey v.score
        · rw [hkk] at hk
          rw [hk] at hc
          cases hc
        · simp [hc, hkk, hk]

/-- Witness for C9 at a concrete input: a valid submission over an empty
store with one unrelated cached rank, which survives. -/
theorem submitScore_cache_invalidation_witness :
    (submitScore ⟨[], 0⟩ (fun k => if k = rankCacheKey 9 then some 4 else none)
        (some ⟨"q", 7, "t"⟩) 0 true true true).cacheDeletes =
      [cacheKeyTopScores]
    ∧ (submitScore ⟨[], 0⟩
        (fun k => if k = rankCacheKey 9 then some 4 else none)
        (some ⟨"q", 7, "t"⟩) 0 true true true).rankCache (rankCacheKey 9) =
      some 4 :=
  ⟨(submitScore_cache_invalidation ⟨[], 0⟩
      (fun k => if k = rankCacheKey 9 then some 4 else none) ⟨"q", 7, "t"⟩
      ⟨"q", 7, "t"⟩ 0 true true (by decide)).1,
   (submitScore_cache_invalidation ⟨[], 0⟩
      (fun k => if k = rankCacheKey 9 then some 4 else none) ⟨"q", 7, "t"⟩
      ⟨"q", 7, "t"⟩ 0 true true (by decide)).2 (rankCacheKey 9) 4 (by simp)⟩

end SpiceRunner
